import Mathlib

/-!
Shallow embedding of `src/app.py` (GoldPrice_Prediction).

Numeric cell values and user-entered prices are modelled as rationals.
The external collaborators (the filesystem, `pd.read_csv`, `pickle.load`,
and the deserialized model object) are parameters of the embedded
functions: a path-existence predicate, a CSV reader, a deserializer
returning one of the outcomes `pickle.load` can have in Python
(success, an exception in the `pickle.PickleError` class, or an
exception outside that class), and the model as a fallible function
from a feature frame to a list of outputs.
-/

/-- Exception classes that appear in `app.py`.  `fileNotFound` is
Python `FileNotFoundError` (the NotFoundError of the spec), `valueError`
is Python `ValueError` (the SchemaError of the spec), `pickleError` is
`pickle.PickleError` (the DeserializationError of the spec), and
`otherError` stands for any exception outside those three classes. -/
inductive Err where
  | fileNotFound (msg : String)
  | valueError (msg : String)
  | pickleError (msg : String)
  | otherError (msg : String)
deriving DecidableEq, Repr

/-- The message carried by an exception. -/
def Err.message : Err → String
  | .fileNotFound m => m
  | .valueError m => m
  | .pickleError m => m
  | .otherError m => m

/-- Whether the exception class is in the tuple
`(FileNotFoundError, ValueError, pickle.PickleError)` caught by
`GoldPriceApp.__init__` (line 115 of `app.py`). -/
def Err.isCaught : Err → Bool
  | .otherError _ => false
  | _ => true

/-- Whether the exception is a `FileNotFoundError`. -/
def Err.isFileNotFound : Err → Bool
  | .fileNotFound _ => true
  | _ => false

/-- Whether the exception is a `pickle.PickleError`. -/
def Err.isPickleError : Err → Bool
  | .pickleError _ => true
  | _ => false

/-- A pandas DataFrame: a list of column names and a list of rows,
each row a list of rational cell values aligned with the columns. -/
structure DataFrame where
  cols : List String
  rows : List (List ℚ)
deriving DecidableEq, Repr

/-- The cell of a row at a named column (0 when the column is absent;
it is only used on frames whose columns were validated). -/
def lookupCell (cols : List String) (row : List ℚ) (c : String) : ℚ :=
  ((cols.zip row).lookup c).getD 0

/-- Column projection `df[names]`: keep the named columns, in the
given order, for every row. -/
def DataFrame.select (df : DataFrame) (names : List String) : DataFrame :=
  ⟨names, df.rows.map (fun r => names.map (lookupCell df.cols r))⟩

/-- The pandas `head(n)`: the first `n` rows, in order. -/
def DataFrame.head (df : DataFrame) (n : Nat) : DataFrame :=
  ⟨df.cols, df.rows.take n⟩

/-- `DataHandler` of `app.py`: the stored path, the required column
set (as the list in which Python enumerates it), and the loaded frame. -/
structure DataHandler where
  file_path : String
  required_columns : List String
  df : DataFrame

/-- `DataHandler._load_data` (lines 25-36): raise `FileNotFoundError`
when the path does not exist, otherwise read the CSV and raise
`ValueError` when a required column is missing from the loaded frame. -/
def DataHandler.load_data (pathEx : String → Bool) (readCsv : String → DataFrame)
    (file_path : String) (required_columns : List String) : Except Err DataFrame :=
  if !(pathEx file_path) then
    .error (.fileNotFound ("File not found: " ++ file_path))
  else
    let df := readCsv file_path
    if !(required_columns.all (fun c => df.cols.contains c)) then
      .error (.valueError ("CSV file must contain these columns: " ++
        String.intercalate ", " required_columns))
    else
      .ok df

/-- `DataHandler.__init__` (lines 9-23): store the path and the
required columns and load the data. -/
def DataHandler.make (pathEx : String → Bool) (readCsv : String → DataFrame)
    (file_path : String) (required_columns : List String) : Except Err DataHandler :=
  (DataHandler.load_data pathEx readCsv file_path required_columns).map
    (fun df => ⟨file_path, required_columns, df⟩)

/-- `DataHandler.get_head` (lines 38-48):
`self.df[list(self.required_columns)].head(n)`. -/
def DataHandler.get_head (h : DataHandler) (n : Nat) : DataFrame :=
  (h.df.select h.required_columns).head n

/-- The deserialized model object: its duck-typed `predict` takes a
feature frame and either returns the list of outputs or raises (the
error is the message of the raised exception). -/
def Model := DataFrame → Except String (List ℚ)

/-- The possible outcomes of `pickle.load` on the artifact at a path:
a model, an exception in the `pickle.PickleError` class, or an
exception outside that class (for example `ModuleNotFoundError` or
`AttributeError` on an incompatible artifact). -/
inductive LoadOutcome where
  | ok (m : Model)
  | pickleError (msg : String)
  | otherExc (msg : String)

/-- `Predictor` of `app.py`: the stored path and the loaded model. -/
structure Predictor where
  model_path : String
  model : Model

/-- `Predictor._load_model` (lines 67-78): raise `FileNotFoundError`
when the path does not exist; otherwise run `pickle.load`, re-raising
a `pickle.PickleError` with a wrapped message; an exception outside
`pickle.PickleError` is not caught by the `except` clause and
propagates with its own class and message. -/
def Predictor.load_model (pathEx : String → Bool) (pickleLoad : String → LoadOutcome)
    (model_path : String) : Except Err Model :=
  if !(pathEx model_path) then
    .error (.fileNotFound ("Model file not found: " ++ model_path))
  else
    match pickleLoad model_path with
    | .ok m => .ok m
    | .pickleError e => .error (.pickleError ("Failed to load model: " ++ e))
    | .otherExc e => .error (.otherError e)

/-- `Predictor.__init__` (lines 53-65). -/
def Predictor.make (pathEx : String → Bool) (pickleLoad : String → LoadOutcome)
    (model_path : String) : Except Err Predictor :=
  (Predictor.load_model pathEx pickleLoad model_path).map
    (fun m => ⟨model_path, m⟩)

/-- `Predictor.predict` (lines 80-90): `self.model.predict(input_data)[0]`;
indexing an empty output raises, and a raise inside the model
propagates. -/
def Predictor.predict (p : Predictor) (input_data : DataFrame) : Except String ℚ :=
  match p.model input_data with
  | .ok outs =>
      match outs with
      | [] => .error "IndexError: index 0 is out of bounds"
      | x :: _ => .ok x
  | .error e => .error e

/-- `GoldPriceApp` after a successful `__init__` (lines 108-114). -/
structure GoldPriceApp where
  data_handler : DataHandler
  predictor : Predictor
  required_columns : List String

/-- The result of `GoldPriceApp.__init__`: a constructed app, a halt
with a displayed message (`st.error` then `st.stop`, lines 116-117),
or an exception propagating out of the constructor unhandled. -/
inductive InitResult where
  | ok (app : GoldPriceApp)
  | halted (msg : String)
  | propagated (e : Err)

/-- The possible outcomes of the `pd.read_csv` call on an existing
path (line 32): a parsed frame, or a raised exception of some class
(pandas parse failures are `ValueError` subclasses; the file layer can
also raise outside the caught classes, for example `OSError`). -/
inductive CsvOutcome where
  | ok (df : DataFrame)
  | raised (e : Err)

/-- `DataHandler._load_data` (lines 25-36) with the reader allowed to
raise: an exception from `pd.read_csv` propagates through
`_load_data`, which has no handler around the read. -/
def DataHandler.load_data_exc (pathEx : String → Bool)
    (readCsvE : String → CsvOutcome)
    (file_path : String) (required_columns : List String) : Except Err DataFrame :=
  if !(pathEx file_path) then
    .error (.fileNotFound ("File not found: " ++ file_path))
  else
    match readCsvE file_path with
    | .raised e => .error e
    | .ok df =>
      if !(required_columns.all (fun c => df.cols.contains c)) then
        .error (.valueError ("CSV file must contain these columns: " ++
          String.intercalate ", " required_columns))
      else
        .ok df

/-- `DataHandler.__init__` over the raising reader. -/
def DataHandler.make_exc (pathEx : String → Bool) (readCsvE : String → CsvOutcome)
    (file_path : String) (required_columns : List String) : Except Err DataHandler :=
  (DataHandler.load_data_exc pathEx readCsvE file_path required_columns).map
    (fun df => ⟨file_path, required_columns, df⟩)

/-- `GoldPriceApp.__init__` (lines 95-117): construct the
`DataHandler` then the `Predictor`; an exception in the tuple
`(FileNotFoundError, ValueError, pickle.PickleError)` is displayed and
halts; any other exception propagates unhandled. -/
def GoldPriceApp.init (fsEx : String → Bool) (readCsvE : String → CsvOutcome)
    (modelEx : String → Bool) (pickleLoad : String → LoadOutcome)
    (data_path model_path : String) (required_columns : List String) : InitResult :=
  match DataHandler.make_exc fsEx readCsvE data_path required_columns with
  | .error e => if e.isCaught then .halted e.message else .propagated e
  | .ok dh =>
    match Predictor.make modelEx pickleLoad model_path with
    | .error e => if e.isCaught then .halted e.message else .propagated e
    | .ok p => .ok ⟨dh, p, required_columns⟩

/-- What the predict branch of `run` displays (lines 137-154). -/
inductive PredictOutcome where
  | validationError (msg : String)
  | success (value : ℚ)
  | predictionFailed (msg : String)
deriving DecidableEq, Repr

/-- The single-row feature frame built at lines 143-146:
`pd.DataFrame([[open_price, high_price, low_price]], columns=[Open, High, Low])`
with the column list hardcoded. -/
def GoldPriceApp.input_df (open_price high_price low_price : ℚ) : DataFrame :=
  ⟨["Open", "High", "Low"], [[open_price, high_price, low_price]]⟩

/-- The body of the predict button branch (lines 137-154):
reject any non-positive input with the validation message; otherwise
build the feature frame, call `predict`, and display the result or the
failure message.  A successful outcome carries the numeric value
rendered as `The predicted closing price is: X.XX`. -/
def GoldPriceApp.handle_predict (app : GoldPriceApp)
    (open_price high_price low_price : ℚ) : PredictOutcome :=
  if open_price ≤ 0 ∨ high_price ≤ 0 ∨ low_price ≤ 0 then
    .validationError "All prices must be positive values."
  else
    match app.predictor.predict (GoldPriceApp.input_df open_price high_price low_price) with
    | .ok prediction => .success prediction
    | .error e => .predictionFailed ("Prediction failed: " ++ e)

/-- The table rendered at line 127: `st.table(self.data_handler.get_head(4))`. -/
def GoldPriceApp.previewTable (app : GoldPriceApp) : DataFrame :=
  app.data_handler.get_head 4

/-- The states of the application state machine of the spec:
`ready` after a successful construction, `halted` after `st.stop`. -/
inductive AppState where
  | ready
  | halted
deriving DecidableEq, Repr

/-- A running session: the constructed app, the state, and the
outcome displayed in the output area after the last predict trigger. -/
structure Session where
  app : GoldPriceApp
  state : AppState
  display : Option PredictOutcome

/-- One predict trigger: in the ready state the predict branch runs
and its outcome replaces the displayed one; a halted session accepts
no further interaction. -/
def Session.step (s : Session) (open_price high_price low_price : ℚ) : Session :=
  match s.state with
  | .ready => { s with display := some (s.app.handle_predict open_price high_price low_price) }
  | .halted => s

/-- Definition following the words of the spec, for comparison with
the code: the preview is the last `n` historical rows restricted to
the required fields. -/
def spec_last_rows (dh : DataHandler) (n : Nat) : DataFrame :=
  let sel := dh.df.select dh.required_columns
  ⟨sel.cols, sel.rows.drop (sel.rows.length - n)⟩

/-! Concrete fixtures used by witnesses and counterexamples. -/

/-- A filesystem on which every path exists. -/
def fsAll : String → Bool := fun _ => true

/-- A filesystem on which no path exists. -/
def fsNone : String → Bool := fun _ => false

/-- A concrete five-row dataset with the default required columns. -/
def sampleDf : DataFrame :=
  ⟨["Open", "High", "Low"],
   [[1, 2, 3], [4, 5, 6], [7, 8, 9], [10, 11, 12], [13, 14, 15]]⟩

/-- A CSV reader returning the sample dataset for every path. -/
def readCsv0 : String → DataFrame := fun _ => sampleDf

/-- A model that always returns the single output 7. -/
def constModel : Model := fun _ => .ok [7]

/-- A model whose predict call always raises. -/
def failModel : Model := fun _ => .error "boom"

/-- A deserializer that succeeds with the constant model. -/
def derOk : String → LoadOutcome := fun _ => .ok constModel

/-- A deserializer raising inside the `pickle.PickleError` class. -/
def derPickle : String → LoadOutcome := fun _ => .pickleError "bad pickle"

/-- A deserializer raising outside the `pickle.PickleError` class, as
an incompatible artifact does. -/
def derOther : String → LoadOutcome := fun _ => .otherExc "ModuleNotFoundError"

/-- A reader call that succeeds with the sample dataset. -/
def csvOk : String → CsvOutcome := fun _ => .ok sampleDf

/-- A reader call raising outside the caught classes, as an OSError
from the file layer does. -/
def csvRaises : String → CsvOutcome := fun _ => .raised (.otherError "OSError")

/-- The `DataHandler` built from the sample dataset. -/
def dh0 : DataHandler := ⟨"Gold_Price.csv", ["Open", "High", "Low"], sampleDf⟩

/-- A concrete app over the sample dataset and the constant model. -/
def app0 : GoldPriceApp :=
  ⟨dh0, ⟨"svm_model.pkl", constModel⟩, ["Open", "High", "Low"]⟩

/-- A concrete app whose model raises on every predict call. -/
def appFail : GoldPriceApp :=
  ⟨dh0, ⟨"svm_model.pkl", failModel⟩, ["Open", "High", "Low"]⟩

/-- A ready session over `app0` with nothing displayed yet. -/
def session0 : Session := ⟨app0, .ready, none⟩

/-- A ready session over `appFail` with nothing displayed yet. -/
def sessionFail : Session := ⟨appFail, .ready, none⟩

/-! Theorems about the embedded program. -/

/-- C2: for every dataset whose construction succeeded, `get_head n`
returns exactly `min n row_count` rows containing only the required
fields, with rows in their original order (row `i` of the result is
the projection of row `i` of the loaded frame). -/
theorem C2_get_head_spec (pathEx : String → Bool) (readCsv : String → DataFrame)
    (path : String) (req : List String) (dh : DataHandler) (n : Nat)
    (_hmk : DataHandler.make pathEx readCsv path req = .ok dh) :
    (dh.get_head n).cols = dh.required_columns
  ∧ (dh.get_head n).rows.length = min n dh.df.rows.length
  ∧ (dh.get_head n).rows
      = (dh.df.rows.map (fun r => dh.required_columns.map (lookupCell dh.df.cols r))).take n := by
  refine ⟨rfl, ?_, rfl⟩
  simp [DataHandler.get_head, DataFrame.select, DataFrame.head]

/-- C2 witness at the concrete sample dataset with `n = 4`. -/
theorem C2_get_head_spec_witness :
    (dh0.get_head 4).cols = dh0.required_columns
  ∧ (dh0.get_head 4).rows.length = min 4 dh0.df.rows.length
  ∧ (dh0.get_head 4).rows
      = (dh0.df.rows.map (fun r => dh0.required_columns.map (lookupCell dh0.df.cols r))).take 4 :=
  C2_get_head_spec fsAll readCsv0 "Gold_Price.csv" ["Open", "High", "Low"] dh0 4 rfl

/-- C5: for every dataset path that does not exist, construction fails
with `FileNotFoundError`, and the CSV reader is never consulted (the
result is the same for every reader). -/
theorem C5_missing_dataset_notfound (pathEx : String → Bool)
    (readCsv1 readCsv2 : String → DataFrame) (path : String) (req : List String)
    (hmissing : pathEx path = false) :
    DataHandler.make pathEx readCsv1 path req
      = .error (.fileNotFound ("File not found: " ++ path))
  ∧ DataHandler.make pathEx readCsv1 path req
      = DataHandler.make pathEx readCsv2 path req := by
  constructor <;> simp [DataHandler.make, DataHandler.load_data, hmissing, Except.map]

/-- C5 witness on the filesystem where no path exists. -/
theorem C5_missing_dataset_notfound_witness :
    DataHandler.make fsNone readCsv0 "Gold_Price.csv" ["Open", "High", "Low"]
      = .error (.fileNotFound ("File not found: " ++ "Gold_Price.csv"))
  ∧ DataHandler.make fsNone readCsv0 "Gold_Price.csv" ["Open", "High", "Low"]
      = DataHandler.make fsNone (fun _ => ⟨[], []⟩) "Gold_Price.csv" ["Open", "High", "Low"] :=
  C5_missing_dataset_notfound fsNone readCsv0 (fun _ => ⟨[], []⟩)
    "Gold_Price.csv" ["Open", "High", "Low"] rfl

/-- C6: for every existing dataset file whose loaded columns miss at
least one required field, construction fails with `ValueError`. -/
theorem C6_missing_column_schema_error (pathEx : String → Bool)
    (readCsv : String → DataFrame) (path : String) (req : List String) (c : String)
    (hex : pathEx path = true) (hc : c ∈ req) (hmiss : c ∉ (readCsv path).cols) :
    DataHandler.make pathEx readCsv path req
      = .error (.valueError ("CSV file must contain these columns: " ++
          String.intercalate ", " req)) := by
  have hcond : ∃ x ∈ req, x ∉ (readCsv path).cols := ⟨c, hc, hmiss⟩
  simp [DataHandler.make, DataHandler.load_data, hex, hcond, Except.map]

/-- C6 witness: a file whose columns lack the required column Low. -/
theorem C6_missing_column_schema_error_witness :
    DataHandler.make fsAll (fun _ => ⟨["Open", "High"], []⟩) "Gold_Price.csv"
        ["Open", "High", "Low"]
      = .error (.valueError ("CSV file must contain these columns: " ++
          String.intercalate ", " ["Open", "High", "Low"])) :=
  C6_missing_column_schema_error fsAll (fun _ => ⟨["Open", "High"], []⟩)
    "Gold_Price.csv" ["Open", "High", "Low"] "Low" rfl (by simp) (by simp)

/-- C9: the single-row feature frame built for a predict action has
columns exactly Open, High, Low in that fixed order, holding the three
entered values, and the configured required column set has no effect
on the predict branch. -/
theorem C9_input_record_fixed_columns (open_price high_price low_price : ℚ)
    (dh : DataHandler) (mp : String) (m : Model) (rc1 rc2 : List String) :
    (GoldPriceApp.input_df open_price high_price low_price).cols = ["Open", "High", "Low"]
  ∧ (GoldPriceApp.input_df open_price high_price low_price).rows
      = [[open_price, high_price, low_price]]
  ∧ GoldPriceApp.handle_predict ⟨dh, ⟨mp, m⟩, rc1⟩ open_price high_price low_price
      = GoldPriceApp.handle_predict ⟨dh, ⟨mp, m⟩, rc2⟩ open_price high_price low_price :=
  ⟨rfl, rfl, rfl⟩

/-- C1: on a predict trigger with any entered value at most zero, the
session stays ready, displays the validation message, and the outcome
is independent of the loaded model, so inference is never invoked. -/
theorem C1_validation_blocks_inference (s : Session) (open_price high_price low_price : ℚ)
    (hready : s.state = .ready)
    (hbad : open_price ≤ 0 ∨ high_price ≤ 0 ∨ low_price ≤ 0) :
    (s.step open_price high_price low_price).state = .ready
  ∧ (s.step open_price high_price low_price).display
      = some (.validationError "All prices must be positive values.")
  ∧ ∀ m : Model,
      GoldPriceApp.handle_predict
        ⟨s.app.data_handler, ⟨s.app.predictor.model_path, m⟩, s.app.required_columns⟩
        open_price high_price low_price
      = .validationError "All prices must be positive values." := by
  obtain ⟨app, st, disp⟩ := s
  cases hready
  refine ⟨rfl, ?_, ?_⟩
  · simp [Session.step, GoldPriceApp.handle_predict, if_pos hbad]
  · intro m
    simp [GoldPriceApp.handle_predict, if_pos hbad]

/-- C1 witness at open = 0, high = 10, low = 5 on the ready session. -/
theorem C1_validation_blocks_inference_witness :
    (session0.step 0 10 5).state = .ready
  ∧ (session0.step 0 10 5).display
      = some (.validationError "All prices must be positive values.")
  ∧ ∀ m : Model,
      GoldPriceApp.handle_predict
        ⟨session0.app.data_handler, ⟨session0.app.predictor.model_path, m⟩,
         session0.app.required_columns⟩ 0 10 5
      = .validationError "All prices must be positive values." :=
  C1_validation_blocks_inference session0 0 10 5 rfl (Or.inl le_rfl)

/-- C7: when the inference call raises on a valid predict trigger, the
session displays the prediction failure message, stays ready, and a
further predict trigger is handled as usual. -/
theorem C7_inference_error_recovered (s : Session)
    (open_price high_price low_price o2 h2 l2 : ℚ) (e : String)
    (hready : s.state = .ready)
    (hvalid : 0 < open_price ∧ 0 < high_price ∧ 0 < low_price)
    (herr : s.app.predictor.model
        (GoldPriceApp.input_df open_price high_price low_price) = .error e) :
    (s.step open_price high_price low_price).state = .ready
  ∧ (s.step open_price high_price low_price).display
      = some (.predictionFailed ("Prediction failed: " ++ e))
  ∧ ((s.step open_price high_price low_price).step o2 h2 l2).display
      = some (s.app.handle_predict o2 h2 l2) := by
  obtain ⟨app, st, disp⟩ := s
  cases hready
  obtain ⟨ho, hh, hl⟩ := hvalid
  have hcond : ¬(open_price ≤ 0 ∨ high_price ≤ 0 ∨ low_price ≤ 0) := by
    push_neg
    exact ⟨ho, hh, hl⟩
  have herr2 : app.predictor.model
      (GoldPriceApp.input_df open_price high_price low_price) = .error e := herr
  refine ⟨rfl, ?_, ?_⟩
  · simp [Session.step, GoldPriceApp.handle_predict, if_neg hcond,
      Predictor.predict, herr2]
  · simp [Session.step]

/-- C7 witness: the session over the always-raising model. -/
theorem C7_inference_error_recovered_witness :
    (sessionFail.step 1 2 3).state = .ready
  ∧ (sessionFail.step 1 2 3).display
      = some (.predictionFailed ("Prediction failed: " ++ "boom"))
  ∧ ((sessionFail.step 1 2 3).step 4 5 6).display
      = some (sessionFail.app.handle_predict 4 5 6) :=
  C7_inference_error_recovered sessionFail 1 2 3 4 5 6 "boom" rfl
    (by norm_num) rfl

/-- C8: two predict triggers with the same valid inputs and no state
change in between display the same numeric result both times. -/
theorem C8_predict_idempotent (s : Session) (open_price high_price low_price v : ℚ)
    (hready : s.state = .ready)
    (_hvalid : 0 < open_price ∧ 0 < high_price ∧ 0 < low_price)
    (hres : s.app.handle_predict open_price high_price low_price = .success v) :
    (s.step open_price high_price low_price).display = some (.success v)
  ∧ ((s.step open_price high_price low_price).step open_price high_price low_price).display
      = some (.success v) := by
  obtain ⟨app, st, disp⟩ := s
  cases hready
  exact ⟨by simp [Session.step, hres], by simp [Session.step, hres]⟩

/-- C8 witness: the constant model returns 7 both times. -/
theorem C8_predict_idempotent_witness :
    (session0.step 1 2 3).display = some (.success 7)
  ∧ ((session0.step 1 2 3).step 1 2 3).display = some (.success 7) :=
  C8_predict_idempotent session0 1 2 3 7 rfl (by norm_num) (by decide)

/-- C3: on the concrete five-row dataset the rendered preview table is
the first four projected rows, which differs from the last four rows
that the spec and the UI heading describe. -/
theorem C3_preview_first_not_last :
    GoldPriceApp.previewTable app0 ≠ spec_last_rows app0.data_handler 4
  ∧ (GoldPriceApp.previewTable app0).rows
      = ((app0.data_handler.df.select app0.data_handler.required_columns).rows.take 4) := by
  exact ⟨by decide, rfl⟩

/-- C4 counterexample: at an existing model path whose artifact makes
the deserializer raise outside the pickle error class, the load fails
with an outcome that is neither a FileNotFoundError nor a
pickle.PickleError, so a failed load has a third outcome. -/
theorem C4_counterexample :
    Predictor.load_model fsAll derOther "svm_model.pkl"
      = .error (.otherError "ModuleNotFoundError")
  ∧ (Err.otherError "ModuleNotFoundError").isFileNotFound = false
  ∧ (Err.otherError "ModuleNotFoundError").isPickleError = false :=
  ⟨rfl, rfl, rfl⟩

/-- C4 amended: Predictor construction fails with FileNotFoundError
when the model path does not exist; when the deserializer raises a
pickle error it fails with the wrapped pickle error; when the
deserializer raises outside the pickle error class, that exception
propagates unhandled instead of becoming a deserialization error. -/
theorem C4_load_model_taxonomy (pathEx : String → Bool)
    (pickleLoad : String → LoadOutcome) (p : String) :
    (pathEx p = false →
       Predictor.load_model pathEx pickleLoad p
         = .error (.fileNotFound ("Model file not found: " ++ p)))
  ∧ (∀ msg, pathEx p = true → pickleLoad p = .pickleError msg →
       Predictor.load_model pathEx pickleLoad p
         = .error (.pickleError ("Failed to load model: " ++ msg)))
  ∧ (∀ msg, pathEx p = true → pickleLoad p = .otherExc msg →
       Predictor.load_model pathEx pickleLoad p
         = .error (.otherError msg)) := by
  refine ⟨?_, ?_, ?_⟩
  · intro hmiss
    simp [Predictor.load_model, hmiss]
  · intro msg hex hpk
    simp [Predictor.load_model, hex, hpk]
  · intro msg hex hoth
    simp [Predictor.load_model, hex, hoth]

/-- C4 witness instantiating each branch of the taxonomy. -/
theorem C4_load_model_taxonomy_witness :
    Predictor.load_model fsNone derOk "svm_model.pkl"
      = .error (.fileNotFound ("Model file not found: " ++ "svm_model.pkl"))
  ∧ Predictor.load_model fsAll derPickle "svm_model.pkl"
      = .error (.pickleError ("Failed to load model: " ++ "bad pickle"))
  ∧ Predictor.load_model fsAll derOther "svm_model.pkl"
      = .error (.otherError "ModuleNotFoundError") :=
  ⟨(C4_load_model_taxonomy fsNone derOk "svm_model.pkl").1 rfl,
   (C4_load_model_taxonomy fsAll derPickle "svm_model.pkl").2.1 "bad pickle" rfl rfl,
   (C4_load_model_taxonomy fsAll derOther "svm_model.pkl").2.2 "ModuleNotFoundError" rfl rfl⟩

/-- C10: construction failures are dispatched by exception class: a
failure of the dataset stage or of the model stage whose class is in
the caught tuple (FileNotFoundError, ValueError, pickle.PickleError)
halts with its displayed message, and a failure of either stage whose
class is outside that tuple, such as a reader or deserializer
exception outside the caught classes, propagates out of the
constructor unhandled; conversely a halt with a message only occurs
when one of the two stages actually raised an exception of a caught
class carrying that message. -/
theorem C10_init_error_taxonomy (fsEx : String → Bool)
    (readCsvE : String → CsvOutcome)
    (modelEx : String → Bool) (pickleLoad : String → LoadOutcome)
    (dp mp : String) (rc : List String) :
    (∀ e, DataHandler.make_exc fsEx readCsvE dp rc = .error e →
       (e.isCaught = true →
          GoldPriceApp.init fsEx readCsvE modelEx pickleLoad dp mp rc
            = .halted e.message)
     ∧ (e.isCaught = false →
          GoldPriceApp.init fsEx readCsvE modelEx pickleLoad dp mp rc
            = .propagated e))
  ∧ (∀ dh e, DataHandler.make_exc fsEx readCsvE dp rc = .ok dh →
       Predictor.make modelEx pickleLoad mp = .error e →
       (e.isCaught = true →
          GoldPriceApp.init fsEx readCsvE modelEx pickleLoad dp mp rc
            = .halted e.message)
     ∧ (e.isCaught = false →
          GoldPriceApp.init fsEx readCsvE modelEx pickleLoad dp mp rc
            = .propagated e))
  ∧ (∀ msg, GoldPriceApp.init fsEx readCsvE modelEx pickleLoad dp mp rc = .halted msg →
       (∃ e, DataHandler.make_exc fsEx readCsvE dp rc = .error e
           ∧ e.isCaught = true ∧ msg = e.message)
     ∨ (∃ dh e, DataHandler.make_exc fsEx readCsvE dp rc = .ok dh
           ∧ Predictor.make modelEx pickleLoad mp = .error e
           ∧ e.isCaught = true ∧ msg = e.message)) := by
  refine ⟨?_, ?_, ?_⟩
  · intro e he
    unfold GoldPriceApp.init
    constructor
    · intro hc
      simp only [he]
      rw [if_pos hc]
    · intro hc
      simp only [he]
      rw [if_neg (by simp [hc])]
  · intro dh e hdh hp
    unfold GoldPriceApp.init
    constructor
    · intro hc
      simp only [hdh, hp]
      rw [if_pos hc]
    · intro hc
      simp only [hdh, hp]
      rw [if_neg (by simp [hc])]
  · intro msg hmsg
    unfold GoldPriceApp.init at hmsg
    cases hd : DataHandler.make_exc fsEx readCsvE dp rc with
    | error e =>
      simp only [hd] at hmsg
      by_cases hc : e.isCaught = true
      · rw [if_pos hc] at hmsg
        injection hmsg with hm
        exact Or.inl ⟨e, rfl, hc, hm.symm⟩
      · rw [if_neg hc] at hmsg
        exact InitResult.noConfusion hmsg
    | ok dh =>
      simp only [hd] at hmsg
      cases hp : Predictor.make modelEx pickleLoad mp with
      | error e =>
        simp only [hp] at hmsg
        by_cases hc : e.isCaught = true
        · rw [if_pos hc] at hmsg
          injection hmsg with hm
          exact Or.inr ⟨dh, e, rfl, rfl, hc, hm.symm⟩
        · rw [if_neg hc] at hmsg
          exact InitResult.noConfusion hmsg
      | ok p =>
        simp only [hp] at hmsg
        exact InitResult.noConfusion hmsg

/-- C10 witness: a reader exception outside the caught classes and a
deserializer exception outside the caught classes both propagate out
of the constructor, while a missing dataset path halts with the
displayed not-found message. -/
theorem C10_init_error_taxonomy_witness :
    GoldPriceApp.init fsAll csvRaises fsAll derOk
        "Gold_Price.csv" "svm_model.pkl" ["Open", "High", "Low"]
      = .propagated (.otherError "OSError")
  ∧ GoldPriceApp.init fsAll csvOk fsAll derOther
        "Gold_Price.csv" "svm_model.pkl" ["Open", "High", "Low"]
      = .propagated (.otherError "ModuleNotFoundError")
  ∧ GoldPriceApp.init fsNone csvOk fsAll derOk
        "Gold_Price.csv" "svm_model.pkl" ["Open", "High", "Low"]
      = .halted ("File not found: " ++ "Gold_Price.csv") :=
  ⟨((C10_init_error_taxonomy fsAll csvRaises fsAll derOk
        "Gold_Price.csv" "svm_model.pkl" ["Open", "High", "Low"]).1
      (.otherError "OSError") rfl).2 rfl,
   ((C10_init_error_taxonomy fsAll csvOk fsAll derOther
        "Gold_Price.csv" "svm_model.pkl" ["Open", "High", "Low"]).2.1
      dh0 (.otherError "ModuleNotFoundError") rfl rfl).2 rfl,
   ((C10_init_error_taxonomy fsNone csvOk fsAll derOk
        "Gold_Price.csv" "svm_model.pkl" ["Open", "High", "Low"]).1
      (.fileNotFound ("File not found: " ++ "Gold_Price.csv")) rfl).1 rfl⟩
